import Mathlib

/-
Shallow embedding of the Worker SWR plugin (stale-while-revalidate cache for
Cloudflare Workers).  The embedding covers:

  * `src/helpers/kv.ts` — the KV cache store adapter (`KVCacheStore`: `put`,
    `match`, `delete`), the record codec (current `expireAt` shape and the
    legacy `cacheTtl` shape), `headerToJson` and `restoreResponse`;
  * `src/swr.ts` — the SWR decision engine (`makeMatchFunc`,
    `makeRevalidateFunc`, `makeClearFunc`, `makePutFunc`, `NotMatchedError`).

Modelling choices:
  * wall-clock time (`new Date().getTime()`) is an explicit `now : Int`
    parameter, in milliseconds;
  * JavaScript numbers arising from date arithmetic are modelled by
    `JSNum := Option Int`, where `none` plays the role of `NaN`
    (`new Date(undefined).getTime()` is `NaN`; every comparison with `NaN`
    is false; arithmetic propagates `NaN`);
  * the KV namespace is an association list from URL keys to the parsed JSON
    record; `kv.get(url, ...)` with type json is `kvGet`, `kv.put` with its
    `expirationTtl` hint is recorded as an explicit `KVPutCall`;
  * `fetch` is a parameter `fetchFn : HttpRequest → HttpResponse`, and
    `context.waitUntil(revalidate())` is modelled by counting the scheduled
    revalidation tasks in the outcome; the scheduled task itself is the pure
    function `swrRevalidate`.
-/

/-- A JavaScript number that may be `NaN`; `none` stands for `NaN`. -/
abbrev JSNum := Option Int

/-- JavaScript `x < y` for a possibly-`NaN` left operand: false on `NaN`. -/
def jsLtNum (x : JSNum) (y : Int) : Bool :=
  match x with
  | none => false
  | some v => decide (v < y)

/-- JavaScript subtraction `x - y` with `NaN` propagation. -/
def jsSub (x : JSNum) (y : Int) : JSNum :=
  x.map (fun v => v - y)

/-- JavaScript `Math.floor(x / 1000)`: real division then floor, i.e. floor
division on integers; `NaN` propagates. -/
def jsFloorDivThousand (x : JSNum) : JSNum :=
  x.map (fun v => Int.fdiv v 1000)

/-- JavaScript `Math.max(x, 0)`: `NaN` when `x` is `NaN`. -/
def jsMaxZero (x : JSNum) : JSNum :=
  x.map (fun v => max v 0)

/-- A request, identified (as far as the cache is concerned) by its URL:
`kv.ts` keys every store operation by `req.url`. -/
structure HttpRequest where
  url : String
deriving DecidableEq, Repr

/-- A response: status code, headers (as the string-keyed mapping that
`headerToJson` extracts) and the body materialised as text. -/
structure HttpResponse where
  status : Nat
  headers : List (String × String)
  body : String
deriving DecidableEq, Repr

/-- The JSON object stored under a key, as read back by
`kv.get(req.url, ...)` with type json.  Each field is optional so that
records lacking a field — the `CachedData` shape has `expireAt`, the
deprecated `CachedDataDeprecated` shape has `cacheTtl`, and a malformed
record may have neither — are all representable, exactly as duck-typed
JavaScript objects are. -/
structure StoredRecord where
  headers : Option (List (String × String))
  body : Option String
  expireAt : Option Int
  cacheTtl : Option String
deriving DecidableEq, Repr

/-- The KV namespace: an association list from URL keys to stored records. -/
abbrev KVStore := List (String × StoredRecord)

/-- `kv.get(key)`: first binding for the key, if any. -/
def kvGet (kv : KVStore) (key : String) : Option StoredRecord :=
  match kv with
  | [] => none
  | (k, v) :: rest => if k = key then some v else kvGet rest key

/-- `kv.delete(key)`: drop every binding for `key`; idempotent. -/
def kvDelete (kv : KVStore) (key : String) : KVStore :=
  match kv with
  | [] => []
  | (k, v) :: rest =>
    if k = key then kvDelete rest key else (k, v) :: kvDelete rest key

/-- `kv.put(key, value, ...)`: bind `key` to `value`, replacing any previous
binding. -/
def kvWrite (kv : KVStore) (key : String) (v : StoredRecord) : KVStore :=
  (key, v) :: kvDelete kv key

/-- `const EXPIRATION_TTL = 60 * 60 * 24 * 365` — the fixed store-level
expiration hint, in seconds (one year). -/
def EXPIRATION_TTL : Nat := 60 * 60 * 24 * 365

/-- `headerToJson(response)`: the headers of a response as a string-keyed
mapping. -/
def headerToJson (res : HttpResponse) : List (String × String) :=
  res.headers

/-- One call to the KV backend `put`: the key written, the serialized value
and the `expirationTtl` hint passed alongside. -/
structure KVPutCall where
  key : String
  value : StoredRecord
  expirationTtl : Nat
deriving DecidableEq, Repr

/-- The backend write issued by `KVCacheStore.put(req, res)`: key `req.url`,
value the serialization of headers, body text and
`expireAt = now + ttl * 1000`, with the fixed `EXPIRATION_TTL` hint. -/
def storePutCall (ttl : Int) (now : Int) (req : HttpRequest)
    (res : HttpResponse) : KVPutCall :=
  { key := req.url
  , value :=
      { headers := some (headerToJson res)
      , body := some res.body
      , expireAt := some (now + ttl * 1000)
      , cacheTtl := none }
  , expirationTtl := EXPIRATION_TTL }

/-- Apply a backend write to the store. -/
def applyPutCall (kv : KVStore) (c : KVPutCall) : KVStore :=
  kvWrite kv c.key c.value

/-- `KVCacheStore.put(req, res)`: the store after the write. -/
def storePut (ttl now : Int) (kv : KVStore) (req : HttpRequest)
    (res : HttpResponse) : KVStore :=
  applyPutCall kv (storePutCall ttl now req res)

/-- `restoreResponse(res)`: `new Response(body, ... headers ...)` — a fresh
response with the default status 200; a missing body is the empty body and
missing headers are empty. -/
def restoreResponse (rec : StoredRecord) : HttpResponse :=
  { status := 200
  , headers := rec.headers.getD []
  , body := rec.body.getD "" }

/-- Result of `KVCacheStore.match`: the reconstructed response (or null) and
the remaining freshness time in seconds (a JavaScript number, so possibly
`NaN`). -/
structure StoreMatchResult where
  response : Option HttpResponse
  remainingTime : JSNum
deriving DecidableEq, Repr

/-- `KVCacheStore.match(req)`: read `req.url`; absent gives
`(null, remainingTime 0)`; otherwise the remaining time is
`expireAt - now` when the `expireAt` field is present, else
`new Date(cacheTtl).getTime() - now` (parsing modelled by `parseDate`,
`none` for an invalid date), floored to whole seconds and clamped by
`Math.max(..., 0)`. -/
def storeMatch (parseDate : String → JSNum) (now : Int) (kv : KVStore)
    (req : HttpRequest) : StoreMatchResult :=
  match kvGet kv req.url with
  | none => { response := none, remainingTime := some 0 }
  | some rec =>
    let raw : JSNum :=
      match rec.expireAt with
      | some e => some (e - now)
      | none =>
        match rec.cacheTtl with
        | some s => jsSub (parseDate s) now
        | none => none
    { response := some (restoreResponse rec)
    , remainingTime := jsMaxZero (jsFloorDivThousand raw) }

/-- `KVCacheStore.delete(req)`: `kv.delete(req.url)`. -/
def storeDelete (kv : KVStore) (req : HttpRequest) : KVStore :=
  kvDelete kv req.url

/-- The per-instance arguments of `makeSwr` that the four operations close
over: the original request, the configured TTL (seconds) and the request
transform `proxy`. -/
structure SwrArgs where
  request : HttpRequest
  ttl : Int
  proxy : HttpRequest → HttpRequest

/-- The `onNotMatched` policy of `match` (default is fetch). -/
inductive OnNotMatched
  | fetch
  | error
deriving DecidableEq, Repr

/-- `NotMatchedError`: message plus the original request it carries. -/
structure NotMatchedError where
  message : String
  request : HttpRequest
deriving DecidableEq, Repr

/-- Outcome of `makeRevalidateFunc`s task: the request fetched from origin,
the store afterwards, and the backend put or delete it performed (if any). -/
structure RevalidateOutcome where
  fetchedRequest : HttpRequest
  store : KVStore
  putCall : Option KVPutCall
  deletedKey : Option String
deriving DecidableEq, Repr

/-- `makeRevalidateFunc(args)`s task: fetch `proxy(request)`; on status in
400..499 clear the cache entry (`makeClearFunc`, which deletes under the
original request); on status in 200..299 store the response
(`makePutFunc`, which puts under the original request); otherwise leave the
store untouched. -/
def swrRevalidate (fetchFn : HttpRequest → HttpResponse) (args : SwrArgs)
    (now : Int) (kv : KVStore) : RevalidateOutcome :=
  let proxiedRequest := args.proxy args.request
  let res := fetchFn proxiedRequest
  if 400 ≤ res.status ∧ res.status ≤ 499 then
    { fetchedRequest := proxiedRequest
    , store := storeDelete kv args.request
    , putCall := none
    , deletedKey := some args.request.url }
  else if 200 ≤ res.status ∧ res.status ≤ 299 then
    { fetchedRequest := proxiedRequest
    , store := applyPutCall kv (storePutCall args.ttl now args.request res)
    , putCall := some (storePutCall args.ttl now args.request res)
    , deletedKey := none }
  else
    { fetchedRequest := proxiedRequest
    , store := kv
    , putCall := none
    , deletedKey := none }

/-- What `match` produces for the caller: the response, or the thrown
`NotMatchedError`. -/
inductive MatchReturn
  | ok (res : HttpResponse)
  | notMatched (e : NotMatchedError)
deriving DecidableEq, Repr

/-- Outcome of one `match` call: how many revalidation tasks were handed to
`context.waitUntil`, and what the caller receives. -/
structure MatchOutcome where
  revalidationsScheduled : Nat
  result : MatchReturn
deriving DecidableEq, Repr

/-- `makeMatchFunc(args)`: look up the cache under the original request;
when `forceRevalidate` or `remainingTime < 1` or no cached response,
schedule one revalidation via `context.waitUntil`; then return the cached
response on a hit, and on a miss either throw `NotMatchedError` (policy
error) or return a direct fetch of the proxied request (policy fetch). -/
def swrMatch (parseDate : String → JSNum) (fetchFn : HttpRequest → HttpResponse)
    (args : SwrArgs) (now : Int) (kv : KVStore)
    (forceRevalidate : Bool) (onNotMatched : OnNotMatched) : MatchOutcome :=
  let proxiedRequest := args.proxy args.request
  let m := storeMatch parseDate now kv args.request
  let scheduled : Nat :=
    if forceRevalidate || jsLtNum m.remainingTime 1 || m.response.isNone
    then 1 else 0
  match m.response with
  | some kvCache =>
    { revalidationsScheduled := scheduled, result := .ok kvCache }
  | none =>
    match onNotMatched with
    | .error =>
      { revalidationsScheduled := scheduled
      , result := .notMatched
          { message := "Caches are not matched", request := args.request } }
    | .fetch =>
      { revalidationsScheduled := scheduled
      , result := .ok (fetchFn proxiedRequest) }

/-- `makeClearFunc(args)`: `storeApi.delete(request)` on the original
request. -/
def swrClear (args : SwrArgs) (kv : KVStore) : KVStore :=
  storeDelete kv args.request

/-- `makePutFunc(args)`: `storeApi.put(request, res)` on the original
request. -/
def swrPut (args : SwrArgs) (now : Int) (kv : KVStore)
    (res : HttpResponse) : KVStore :=
  storePut args.ttl now kv args.request res

/-! Store-level lemmas: reading the association list after a write or a
delete. -/

theorem kvGet_kvDelete (kv : KVStore) (k k' : String) :
    kvGet (kvDelete kv k) k' = if k' = k then none else kvGet kv k' := by
  induction kv with
  | nil => simp [kvDelete, kvGet]
  | cons p rest ih =>
    obtain ⟨pk, pv⟩ := p
    by_cases hp : pk = k <;> by_cases hk : k' = k <;> by_cases hq : pk = k' <;>
      simp_all [kvDelete, kvGet]

theorem kvGet_kvWrite (kv : KVStore) (k k' : String) (v : StoredRecord) :
    kvGet (kvWrite kv k v) k' = if k = k' then some v else kvGet kv k' := by
  simp only [kvWrite, kvGet, kvGet_kvDelete]
  by_cases h : k = k'
  · simp [h]
  · have h' : ¬ (k' = k) := fun hh => h hh.symm
    simp [h, h']

/-! Characterization of one `match` call on a hit and on a miss. -/

theorem swrMatch_hit (parseDate : String → JSNum)
    (fetchFn : HttpRequest → HttpResponse) (args : SwrArgs) (now : Int)
    (kv : KVStore) (forceRevalidate : Bool) (onNotMatched : OnNotMatched)
    (r : HttpResponse)
    (h : (storeMatch parseDate now kv args.request).response = some r) :
    swrMatch parseDate fetchFn args now kv forceRevalidate onNotMatched =
      { revalidationsScheduled :=
          if forceRevalidate
              || jsLtNum (storeMatch parseDate now kv args.request).remainingTime 1
          then 1 else 0
      , result := .ok r } := by
  simp [swrMatch, h]

theorem swrMatch_miss (parseDate : String → JSNum)
    (fetchFn : HttpRequest → HttpResponse) (args : SwrArgs) (now : Int)
    (kv : KVStore) (forceRevalidate : Bool) (onNotMatched : OnNotMatched)
    (h : (storeMatch parseDate now kv args.request).response = none) :
    swrMatch parseDate fetchFn args now kv forceRevalidate onNotMatched =
      { revalidationsScheduled := 1
      , result :=
          match onNotMatched with
          | .error => .notMatched
              { message := "Caches are not matched", request := args.request }
          | .fetch => .ok (fetchFn (args.proxy args.request)) } := by
  cases onNotMatched <;> simp [swrMatch, h]

/-! Concrete instances used by the witnesses. -/

/-- Concrete date parser: knows one ISO timestamp (the epoch plus one
minute); every other string is an invalid date (`NaN`). -/
def demoParse : String → JSNum :=
  fun s => if s = "1970-01-01T00:01:00.000Z" then some 60000 else none

/-- Concrete origin: echoes the URL in the body, status 200. -/
def demoFetch : HttpRequest → HttpResponse :=
  fun q => { status := 200, headers := [], body := "origin:" ++ q.url }

/-- Concrete original request. -/
def demoReq : HttpRequest := { url := "https://example.com/a" }

/-- Instance arguments with the identity proxy, TTL 60 s. -/
def demoArgs : SwrArgs := { request := demoReq, ttl := 60, proxy := fun r => r }

/-- Instance arguments with a proxy that rewrites every request to another
host, TTL 60 s. -/
def demoProxyArgs : SwrArgs :=
  { request := demoReq
  , ttl := 60
  , proxy := fun _ => { url := "https://origin.internal/p" } }

/-- A store holding a fresh entry for `demoReq` (expires at 60000 ms, so 60
seconds remain at time 0). -/
def demoFreshKV : KVStore :=
  [(demoReq.url,
    { headers := some [("content-type", "text/html")]
    , body := some "cached-body"
    , expireAt := some 60000
    , cacheTtl := none })]

/-- The response `restoreResponse` rebuilds from the `demoFreshKV` entry. -/
def demoCachedResponse : HttpResponse :=
  { status := 200
  , headers := [("content-type", "text/html")]
  , body := "cached-body" }

/-- C1: on a cache hit with `forceRevalidate = false` and at least one
second of remaining freshness, `match` returns the cached response and
schedules no revalidation task; on a stale hit (`remainingTime < 1`) or any
hit with `forceRevalidate = true`, `match` returns the previously cached
response (never a fresh fetch) and schedules exactly one revalidation
task. -/
theorem c1_hit_freshness_decides_revalidation
    (parseDate : String → JSNum) (fetchFn : HttpRequest → HttpResponse)
    (args : SwrArgs) (now : Int) (kv : KVStore)
    (forceRevalidate : Bool) (onNotMatched : OnNotMatched) (r : HttpResponse)
    (hhit : (storeMatch parseDate now kv args.request).response = some r) :
    ((∃ n : Int,
        (storeMatch parseDate now kv args.request).remainingTime = some n
          ∧ 1 ≤ n) →
      forceRevalidate = false →
      swrMatch parseDate fetchFn args now kv forceRevalidate onNotMatched =
        { revalidationsScheduled := 0, result := .ok r }) ∧
    ((jsLtNum (storeMatch parseDate now kv args.request).remainingTime 1 = true
        ∨ forceRevalidate = true) →
      swrMatch parseDate fetchFn args now kv forceRevalidate onNotMatched =
        { revalidationsScheduled := 1, result := .ok r }) := by
  constructor
  · rintro ⟨n, hn, h1⟩ hf
    subst hf
    have hlt : jsLtNum
        (storeMatch parseDate now kv args.request).remainingTime 1 = false := by
      rw [hn]
      simp only [jsLtNum, decide_eq_false_iff_not]
      omega
    rw [swrMatch_hit parseDate fetchFn args now kv false onNotMatched r hhit,
      hlt]
    simp
  · rintro (hlt | hf)
    · rw [swrMatch_hit parseDate fetchFn args now kv forceRevalidate
        onNotMatched r hhit, hlt]
      simp
    · subst hf
      rw [swrMatch_hit parseDate fetchFn args now kv true onNotMatched r hhit]
      simp

/-- Witness for C1: a concrete fresh hit returns the cached response with no
revalidation scheduled. -/
theorem c1_witness :
    swrMatch demoParse demoFetch demoArgs 0 demoFreshKV false .fetch =
      { revalidationsScheduled := 0, result := .ok demoCachedResponse } :=
  (c1_hit_freshness_decides_revalidation demoParse demoFetch demoArgs 0
      demoFreshKV false .fetch demoCachedResponse (by decide)).1
    ⟨60, by decide, by decide⟩ rfl

/-- C2: on a miss with the fetch policy, `match` returns exactly the result
of a direct origin fetch of the proxy-transformed request and schedules one
revalidation task; the scheduled revalidation independently fetches the
proxied request again, so the same miss causes two origin requests. -/
theorem c2_miss_fetch_policy
    (parseDate : String → JSNum) (fetchFn : HttpRequest → HttpResponse)
    (args : SwrArgs) (now : Int) (kv : KVStore) (forceRevalidate : Bool)
    (hmiss : (storeMatch parseDate now kv args.request).response = none) :
    swrMatch parseDate fetchFn args now kv forceRevalidate .fetch =
      { revalidationsScheduled := 1
      , result := .ok (fetchFn (args.proxy args.request)) } ∧
    (swrRevalidate fetchFn args now kv).fetchedRequest
        = args.proxy args.request := by
  refine ⟨?_, ?_⟩
  · rw [swrMatch_miss parseDate fetchFn args now kv forceRevalidate .fetch
      hmiss]
  · simp only [swrRevalidate]
    split
    · rfl
    · split <;> rfl

/-- Witness for C2: a concrete miss under the fetch policy. -/
theorem c2_witness :
    swrMatch demoParse demoFetch demoArgs 0 [] false .fetch =
      { revalidationsScheduled := 1
      , result := .ok (demoFetch (demoArgs.proxy demoArgs.request)) } ∧
    (swrRevalidate demoFetch demoArgs 0 []).fetchedRequest
        = demoArgs.proxy demoArgs.request :=
  c2_miss_fetch_policy demoParse demoFetch demoArgs 0 [] false (by decide)

/-- C3: on a miss with the error policy, `match` fails with a
`NotMatchedError` carrying the original request and still schedules one
revalidation task; conversely, whenever `match` fails with a
`NotMatchedError`, the cache lookup was a miss, the policy was the error
policy, and the error carries the original request. -/
theorem c3_miss_error_policy
    (parseDate : String → JSNum) (fetchFn : HttpRequest → HttpResponse)
    (args : SwrArgs) (now : Int) (kv : KVStore)
    (forceRevalidate : Bool) (onNotMatched : OnNotMatched) :
    ((storeMatch parseDate now kv args.request).response = none →
      swrMatch parseDate fetchFn args now kv forceRevalidate .error =
        { revalidationsScheduled := 1
        , result := .notMatched
            { message := "Caches are not matched"
            , request := args.request } }) ∧
    (∀ e : NotMatchedError,
      (swrMatch parseDate fetchFn args now kv forceRevalidate
          onNotMatched).result = .notMatched e →
      (storeMatch parseDate now kv args.request).response = none ∧
      onNotMatched = .error ∧ e.request = args.request) := by
  constructor
  · intro hmiss
    rw [swrMatch_miss parseDate fetchFn args now kv forceRevalidate .error
      hmiss]
  · intro e he
    cases hres : (storeMatch parseDate now kv args.request).response with
    | some r =>
      rw [swrMatch_hit parseDate fetchFn args now kv forceRevalidate
        onNotMatched r hres] at he
      simp at he
    | none =>
      rw [swrMatch_miss parseDate fetchFn args now kv forceRevalidate
        onNotMatched hres] at he
      cases onNotMatched with
      | fetch => simp at he
      | error =>
        refine ⟨rfl, rfl, ?_⟩
        simp only [MatchReturn.notMatched.injEq] at he
        rw [← he]

/-- Witness for C3: a concrete miss under the error policy, with a proxy
that rewrites the request — the error still carries the original request. -/
theorem c3_witness :
    swrMatch demoParse demoFetch demoProxyArgs 0 [] false .error =
      { revalidationsScheduled := 1
      , result := .notMatched
          { message := "Caches are not matched"
          , request := demoProxyArgs.request } } :=
  (c3_miss_error_policy demoParse demoFetch demoProxyArgs 0 [] false
      .error).1 (by decide)

/-- Concrete client-error origin response. -/
def demoRes404 : HttpResponse := { status := 404, headers := [], body := "nf" }

/-- Concrete server-error origin response with the same headers and body as
`demoRes404`. -/
def demoRes500 : HttpResponse := { status := 500, headers := [], body := "nf" }

/-- C4: one run of the revalidation task classifies the origin status — a
2xx response leaves the store holding the fresh body and headers under the
key, a 4xx response leaves the store with no entry for the key, and any
other status leaves the store exactly as it was, performing neither a put
nor a delete. -/
theorem c4_revalidate_status_classes
    (fetchFn : HttpRequest → HttpResponse) (args : SwrArgs) (now : Int)
    (kv : KVStore) :
    ((200 ≤ (fetchFn (args.proxy args.request)).status
        ∧ (fetchFn (args.proxy args.request)).status ≤ 299) →
      kvGet (swrRevalidate fetchFn args now kv).store args.request.url =
        some
          { headers := some (fetchFn (args.proxy args.request)).headers
          , body := some (fetchFn (args.proxy args.request)).body
          , expireAt := some (now + args.ttl * 1000)
          , cacheTtl := none }) ∧
    ((400 ≤ (fetchFn (args.proxy args.request)).status
        ∧ (fetchFn (args.proxy args.request)).status ≤ 499) →
      kvGet (swrRevalidate fetchFn args now kv).store args.request.url
        = none) ∧
    (¬ (200 ≤ (fetchFn (args.proxy args.request)).status
        ∧ (fetchFn (args.proxy args.request)).status ≤ 299) →
     ¬ (400 ≤ (fetchFn (args.proxy args.request)).status
        ∧ (fetchFn (args.proxy args.request)).status ≤ 499) →
      (swrRevalidate fetchFn args now kv).store = kv ∧
      (swrRevalidate fetchFn args now kv).putCall = none ∧
      (swrRevalidate fetchFn args now kv).deletedKey = none) := by
  refine ⟨?_, ?_, ?_⟩
  · intro h2
    have h4 : ¬ (400 ≤ (fetchFn (args.proxy args.request)).status
        ∧ (fetchFn (args.proxy args.request)).status ≤ 499) := by omega
    simp only [swrRevalidate, if_neg h4, if_pos h2, applyPutCall,
      storePutCall, headerToJson]
    rw [kvGet_kvWrite]
    simp
  · intro h4
    simp only [swrRevalidate, if_pos h4, storeDelete]
    rw [kvGet_kvDelete]
    simp
  · intro h2 h4
    simp [swrRevalidate, if_neg h4, if_neg h2]

/-- Witness for C4: a concrete 200 revalidation stores the fresh entry, and
a concrete 404 revalidation removes the entry. -/
theorem c4_witness :
    kvGet (swrRevalidate demoFetch demoArgs 0 demoFreshKV).store
        demoArgs.request.url =
      some
        { headers := some (demoFetch (demoArgs.proxy demoArgs.request)).headers
        , body := some (demoFetch (demoArgs.proxy demoArgs.request)).body
        , expireAt := some (0 + demoArgs.ttl * 1000)
        , cacheTtl := none } ∧
    kvGet (swrRevalidate (fun _ => demoRes404) demoArgs 0 demoFreshKV).store
        demoArgs.request.url = none :=
  ⟨(c4_revalidate_status_classes demoFetch demoArgs 0 demoFreshKV).1
      (by decide),
   (c4_revalidate_status_classes (fun _ => demoRes404) demoArgs 0
      demoFreshKV).2.1 (by decide)⟩

/-- C10: every response the store adapter reconstructs on a hit has status
200, whatever the status of the originally stored response: `put`
serializes only headers and body (two responses differing only in status
produce the identical backend write), and `restoreResponse` builds a
response with the default status. -/
theorem c10_restored_status_200
    (parseDate : String → JSNum) (now : Int) (kv : KVStore)
    (req : HttpRequest) (r : HttpResponse) (ttl t : Int)
    (res res2 : HttpResponse)
    (hhit : (storeMatch parseDate now kv req).response = some r) :
    r.status = 200 ∧
    (res.headers = res2.headers → res.body = res2.body →
      storePutCall ttl t req res = storePutCall ttl t req res2) := by
  constructor
  · cases hkv : kvGet kv req.url with
    | none => simp [storeMatch, hkv] at hhit
    | some rec =>
      simp only [storeMatch, hkv, Option.some.injEq] at hhit
      rw [← hhit]
      rfl
  · intro hh hb
    simp [storePutCall, headerToJson, hh, hb]

/-- Witness for C10: an entry stored from a 404 response is reconstructed
with status 200, and the 404 and 500 responses with equal headers and body
produce identical backend writes. -/
theorem c10_witness :
    ({ status := 200, headers := [], body := "nf" } : HttpResponse).status
        = 200 ∧
    (demoRes404.headers = demoRes500.headers →
      demoRes404.body = demoRes500.body →
      storePutCall 60 0 demoReq demoRes404
        = storePutCall 60 0 demoReq demoRes500) :=
  c10_restored_status_200 demoParse 0 (storePut 60 0 [] demoReq demoRes404)
    demoReq { status := 200, headers := [], body := "nf" } 60 0
    demoRes404 demoRes500 (by decide)

/-- The store lookup of `match` depends on the store only through the
binding of the request's own URL. -/
theorem storeMatch_congr (parseDate : String → JSNum) (now : Int)
    (kv kv2 : KVStore) (req : HttpRequest)
    (h : kvGet kv req.url = kvGet kv2 req.url) :
    storeMatch parseDate now kv req = storeMatch parseDate now kv2 req := by
  simp only [storeMatch, h]

/-- C6: every store operation of the engine is keyed by the original
request's URL, never the proxy-transformed one — `put` writes under the
original URL; the revalidation task, although it fetches the proxied
request, puts or deletes only under the original URL and leaves every other
key untouched; `clear` deletes the original URL; and the outcome of `match`
depends on the store only through the binding of the original URL. -/
theorem c6_keys_from_original_request
    (parseDate : String → JSNum) (fetchFn : HttpRequest → HttpResponse)
    (args : SwrArgs) (now : Int) (kv kv2 : KVStore)
    (forceRevalidate : Bool) (onNotMatched : OnNotMatched)
    (res : HttpResponse) :
    (storePutCall args.ttl now args.request res).key = args.request.url ∧
    (∀ c, (swrRevalidate fetchFn args now kv).putCall = some c →
      c.key = args.request.url) ∧
    (∀ k, (swrRevalidate fetchFn args now kv).deletedKey = some k →
      k = args.request.url) ∧
    (∀ k, k ≠ args.request.url →
      kvGet (swrRevalidate fetchFn args now kv).store k = kvGet kv k) ∧
    (swrClear args kv = kvDelete kv args.request.url) ∧
    (kvGet kv args.request.url = kvGet kv2 args.request.url →
      swrMatch parseDate fetchFn args now kv forceRevalidate onNotMatched =
        swrMatch parseDate fetchFn args now kv2 forceRevalidate
          onNotMatched) := by
  refine ⟨rfl, ?_, ?_, ?_, rfl, ?_⟩
  · intro c hc
    revert hc
    simp only [swrRevalidate]
    split
    · intro hc; cases hc
    · split
      · intro hc
        injection hc with h
        rw [← h]
        rfl
      · intro hc; cases hc
  · intro k hk
    revert hk
    simp only [swrRevalidate]
    split
    · intro hk
      injection hk with h
      rw [← h]
    · split
      · intro hk; cases hk
      · intro hk; cases hk
  · intro k hk
    simp only [swrRevalidate]
    split
    · simp only [storeDelete]
      rw [kvGet_kvDelete, if_neg hk]
    · split
      · simp only [applyPutCall, storePutCall]
        rw [kvGet_kvWrite, if_neg (fun hh => hk hh.symm)]
      · rfl
  · intro h
    have hsm := storeMatch_congr parseDate now kv kv2 args.request h
    simp only [swrMatch, hsm]

/-- A second store that agrees with `demoFreshKV` on `demoReq`s URL but
holds an extra unrelated binding. -/
def demoOtherKV : KVStore :=
  ("https://other.example/x",
    { headers := some [], body := some "other"
    , expireAt := some 1, cacheTtl := none }) :: demoFreshKV

/-- Witness for C6: with a proxy that rewrites the URL, a concrete 200
revalidation leaves unrelated keys untouched, and `match` gives the same
outcome on two stores agreeing at the original URL. -/
theorem c6_witness :
    kvGet (swrRevalidate demoFetch demoProxyArgs 0 demoFreshKV).store
        "https://other.example/x"
      = kvGet demoFreshKV "https://other.example/x" ∧
    swrMatch demoParse demoFetch demoProxyArgs 0 demoFreshKV false .fetch =
      swrMatch demoParse demoFetch demoProxyArgs 0 demoOtherKV false
        .fetch :=
  ⟨(c6_keys_from_original_request demoParse demoFetch demoProxyArgs 0
      demoFreshKV demoOtherKV false .fetch demoRes404).2.2.2.1
      "https://other.example/x" (by decide),
   (c6_keys_from_original_request demoParse demoFetch demoProxyArgs 0
      demoFreshKV demoOtherKV false .fetch demoRes404).2.2.2.2.2
      (by decide)⟩

/-- C7: a legacy-shape record (absolute expiry as a `cacheTtl` timestamp
string) and a current-shape record (numeric `expireAt`) encoding the same
absolute expiry instant decode to the same remaining time, namely expiry
minus now, floored to whole seconds and clamped to at least 0. -/
theorem c7_legacy_current_equivalence
    (parseDate : String → JSNum) (now expireAt : Int) (s : String)
    (headers : Option (List (String × String))) (body : Option String)
    (req : HttpRequest)
    (hparse : parseDate s = some expireAt) :
    (storeMatch parseDate now
        [(req.url,
          { headers := headers, body := body
          , expireAt := none, cacheTtl := some s })] req).remainingTime =
      (storeMatch parseDate now
        [(req.url,
          { headers := headers, body := body
          , expireAt := some expireAt, cacheTtl := none })]
        req).remainingTime ∧
    (storeMatch parseDate now
        [(req.url,
          { headers := headers, body := body
          , expireAt := some expireAt, cacheTtl := none })]
        req).remainingTime =
      some (max (Int.fdiv (expireAt - now) 1000) 0) := by
  constructor
  · simp [storeMatch, kvGet, jsSub, hparse]
  · simp [storeMatch, kvGet, jsMaxZero, jsFloorDivThousand]

/-- The legacy-shape demo store: expiry encoded as the ISO timestamp that
`demoParse` reads as 60000 ms. -/
def demoLegacyKV : KVStore :=
  [(demoReq.url,
    { headers := some [], body := some "b"
    , expireAt := none, cacheTtl := some "1970-01-01T00:01:00.000Z" })]

/-- The current-shape demo store with the same absolute expiry instant. -/
def demoCurrentKV : KVStore :=
  [(demoReq.url,
    { headers := some [], body := some "b"
    , expireAt := some 60000, cacheTtl := none })]

/-- Witness for C7: at time 30000 ms, both shapes decode to 30 remaining
seconds. -/
theorem c7_witness :
    (storeMatch demoParse 30000 demoLegacyKV demoReq).remainingTime
        = some 30 ∧
    (storeMatch demoParse 30000 demoCurrentKV demoReq).remainingTime
        = some 30 := by
  obtain ⟨h1, h2⟩ := c7_legacy_current_equivalence demoParse 30000 60000
    "1970-01-01T00:01:00.000Z" (some []) (some "b") demoReq (by decide)
  exact ⟨h1.trans (h2.trans (by decide)), h2.trans (by decide)⟩

/-- C8: writing a fresh entry (`put` at time `t0` with a non-negative TTL)
and reading it back within the same second (`match` at time `t1`) yields a
remaining time within one second of the configured TTL. -/
theorem c8_roundtrip_remaining_time
    (parseDate : String → JSNum) (req : HttpRequest) (res : HttpResponse)
    (kv : KVStore) (ttl t0 t1 : Int)
    (httl : 0 ≤ ttl) (h0 : t0 ≤ t1) (h1 : t1 < t0 + 1000) :
    ∃ rt : Int,
      (storeMatch parseDate t1 (storePut ttl t0 kv req res)
          req).remainingTime = some rt ∧
      ttl - 1 ≤ rt ∧ rt ≤ ttl := by
  refine ⟨max (Int.fdiv (t0 + ttl * 1000 - t1) 1000) 0, ?_, ?_⟩
  · simp [storeMatch, storePut, applyPutCall, storePutCall, kvGet_kvWrite,
      jsMaxZero, jsFloorDivThousand]
  · rw [Int.fdiv_eq_ediv _ (by norm_num)]
    constructor <;> omega

/-- Witness for C8: TTL 60 s written at 0 ms and read at 500 ms has between
59 and 60 remaining seconds. -/
theorem c8_witness :
    ∃ rt : Int,
      (storeMatch demoParse 500 (storePut 60 0 [] demoReq demoRes404)
          demoReq).remainingTime = some rt ∧
      60 - 1 ≤ rt ∧ rt ≤ 60 :=
  c8_roundtrip_remaining_time demoParse demoReq demoRes404 [] 60 0 500
    (by decide) (by decide) (by decide)

/-- Request whose stored record is structurally invalid. -/
def badReq : HttpRequest := { url := "https://example.com/bad" }

/-- A store holding, under `badReq`s URL, a record in neither recognizable
shape: it has no `expireAt` field and no `cacheTtl` field. -/
def badKV : KVStore :=
  [(badReq.url,
    { headers := none, body := none, expireAt := none, cacheTtl := none })]

/-- Instance arguments for the invalid-record scenario. -/
def badArgs : SwrArgs := { request := badReq, ttl := 60, proxy := fun r => r }

/-- Counterexample to C5: a present but structurally invalid record is not
treated as a cache miss.  Under the error policy, a genuine miss (second
conjunct, empty store) raises `NotMatchedError` and schedules a
revalidation, but the invalid record (first conjunct) is returned as a
normal hit — a response rebuilt from the missing fields — with no
revalidation scheduled and no error of any kind. -/
theorem c5_counterexample :
    swrMatch demoParse demoFetch badArgs 0 badKV false .error =
      { revalidationsScheduled := 0
      , result := .ok { status := 200, headers := [], body := "" } } ∧
    swrMatch demoParse demoFetch badArgs 0 [] false .error =
      { revalidationsScheduled := 1
      , result := .notMatched
          { message := "Caches are not matched", request := badReq } } := by
  constructor <;> decide

/-- C5 amended: no decode error exists.  Reading a stored record with
neither the `expireAt` field nor the `cacheTtl` field yields a `NaN`
remaining time together with a response rebuilt from the missing fields,
and because every comparison with `NaN` is false, `match` (without
`forceRevalidate`) treats such a record as a fresh hit under either policy:
it returns the defective reconstructed response and schedules no
revalidation. -/
theorem c5_invalid_record_is_fresh_hit
    (parseDate : String → JSNum) (fetchFn : HttpRequest → HttpResponse)
    (args : SwrArgs) (now : Int) (kv : KVStore)
    (onNotMatched : OnNotMatched) (rec : StoredRecord) (r : HttpResponse)
    (hrec : kvGet kv args.request.url = some rec)
    (hea : rec.expireAt = none) (hct : rec.cacheTtl = none)
    (hr : restoreResponse rec = r) :
    (storeMatch parseDate now kv args.request).remainingTime = none ∧
    (storeMatch parseDate now kv args.request).response = some r ∧
    swrMatch parseDate fetchFn args now kv false onNotMatched =
      { revalidationsScheduled := 0, result := .ok r } := by
  have hsm : storeMatch parseDate now kv args.request =
      { response := some r, remainingTime := none } := by
    simp [storeMatch, hrec, hea, hct, hr, jsMaxZero, jsFloorDivThousand]
  refine ⟨by rw [hsm], by rw [hsm], ?_⟩
  rw [swrMatch_hit parseDate fetchFn args now kv false onNotMatched r
    (by rw [hsm])]
  rw [show (storeMatch parseDate now kv args.request).remainingTime = none
    from by rw [hsm]]
  simp [jsLtNum]

/-- Witness for C5 amended: the concrete invalid record is served as a
fresh hit even under the error policy. -/
theorem c5_amended_witness :
    swrMatch demoParse demoFetch badArgs 0 badKV false .error =
      { revalidationsScheduled := 0
      , result := .ok { status := 200, headers := [], body := "" } } :=
  (c5_invalid_record_is_fresh_hit demoParse demoFetch badArgs 0 badKV
      .error
      { headers := none, body := none, expireAt := none, cacheTtl := none }
      { status := 200, headers := [], body := "" }
      (by decide) rfl rfl (by decide)).2.2

/-- Counterexample to C9: with a configured TTL of 31536001 seconds (one
year plus one second) the store-level expiration hint on a put is the fixed
one-year constant, which does not exceed the application-level TTL. -/
theorem c9_counterexample :
    ¬ ((31536001 : Int) <
        ((storePutCall 31536001 0 demoReq demoRes404).expirationTtl :
          Int)) := by
  decide

/-- C9 amended: the store-level expiration hint passed to the backend on
every put is the fixed constant `EXPIRATION_TTL` of one year in seconds,
independent of the configured TTL, the time and the request; it exceeds the
application-level TTL whenever that TTL is smaller than one year. -/
theorem c9_expiration_hint_fixed_year
    (ttl now : Int) (req : HttpRequest) (res : HttpResponse) :
    (storePutCall ttl now req res).expirationTtl = EXPIRATION_TTL ∧
    EXPIRATION_TTL = 60 * 60 * 24 * 365 ∧
    (ttl < (EXPIRATION_TTL : Int) →
      ttl < ((storePutCall ttl now req res).expirationTtl : Int)) :=
  ⟨rfl, rfl, fun h => h⟩

/-- Witness for C9 amended: a 60-second TTL is exceeded by the hint. -/
theorem c9_witness :
    (60 : Int) <
      ((storePutCall 60 0 demoReq demoRes404).expirationTtl : Int) :=
  (c9_expiration_hint_fixed_year 60 0 demoReq demoRes404).2.2 (by decide)
